import Mathlib

/-!
Shallow embedding of `src/spidevioctl.rs` (rust-spidev): SPI mode and
option bitflags, the spidev transfer descriptor and its constructors,
the kernel-visible `spi_ioc_transfer` structure, and the typed ioctl
accessors parameterised over an ioctl syscall backend.

Machine integers are modelled as `Nat`; byte buffers as `List Nat`;
fallible operations return `Except`.
-/

namespace Spidev

/-! ### Constants (lines 39-46 of the source) -/

/-- `const SPI_IOC_MAGIC: u8 = 'k' as u8;` — ASCII 'k' is 107. -/
def SPI_IOC_MAGIC : Nat := 107

def SPI_IOC_NR_TRANSFER : Nat := 0

def SPI_IOC_NR_MODE : Nat := 1

def SPI_IOC_NR_LSB_FIRST : Nat := 2

def SPI_IOC_NR_BITS_PER_WORD : Nat := 3

def SPI_IOC_NR_MAX_SPEED_HZ : Nat := 4

def SPI_IOC_NR_MODE32 : Nat := 5

/-! ### Mode flags (`bitflags! SpiModeFlags`, lines 17-26) -/

def SPI_CPHA : Nat := 0x01

def SPI_CPOL : Nat := 0x02

def SPI_MODE_0 : Nat := 0x00

/-- `SPI_MODE_1 = SPI_CPHA.bits` in the source. -/
def SPI_MODE_1 : Nat := SPI_CPHA

/-- `SPI_MODE_2 = SPI_CPOL.bits` in the source. -/
def SPI_MODE_2 : Nat := SPI_CPOL

/-- `SPI_MODE_3 = SPI_CPOL.bits | SPI_CPHA.bits` in the source. -/
def SPI_MODE_3 : Nat := SPI_CPOL ||| SPI_CPHA

/-- The union of all declared `SpiModeFlags` flags (the `all()` mask the
bitflags macro generates for the type). -/
def spiModeAllBits : Nat :=
  SPI_CPHA ||| SPI_CPOL ||| SPI_MODE_0 ||| SPI_MODE_1 ||| SPI_MODE_2 ||| SPI_MODE_3

/-- The `SpiModeFlags` bitflags type: a `u8` wrapper whose safe API only
ever produces subsets of the declared flags, i.e. `bits & all() == bits`.
The named constants and the checked constructors below witness that every
inhabitant satisfies this invariant. -/
structure SpiModeFlags where
  bits : Nat
  hsub : bits &&& spiModeAllBits = bits

def SpiModeFlags.mode0 : SpiModeFlags := ⟨SPI_MODE_0, by decide⟩

def SpiModeFlags.mode1 : SpiModeFlags := ⟨SPI_MODE_1, by decide⟩

def SpiModeFlags.mode2 : SpiModeFlags := ⟨SPI_MODE_2, by decide⟩

def SpiModeFlags.mode3 : SpiModeFlags := ⟨SPI_MODE_3, by decide⟩

def SpiModeFlags.cpha : SpiModeFlags := ⟨SPI_CPHA, by decide⟩

def SpiModeFlags.cpol : SpiModeFlags := ⟨SPI_CPOL, by decide⟩

/-- bitflags `from_bits`: accepts a raw byte only when no undeclared bit
is set. -/
def SpiModeFlags.from_bits (b : Nat) : Option SpiModeFlags :=
  if h : b &&& spiModeAllBits = b then some ⟨b, h⟩ else none

/-- bitflags `|` (union) on `SpiModeFlags`. -/
def SpiModeFlags.or (a b : SpiModeFlags) : SpiModeFlags :=
  ⟨a.bits ||| b.bits, by
    have hmask : spiModeAllBits = 3 := by decide
    have ha : a.bits < 4 := by
      have h := a.hsub
      rw [hmask] at h
      have h2 := Nat.and_pow_two_sub_one_eq_mod a.bits 2
      norm_num at h2
      omega
    have hb : b.bits < 4 := by
      have h := b.hsub
      rw [hmask] at h
      have h2 := Nat.and_pow_two_sub_one_eq_mod b.bits 2
      norm_num at h2
      omega
    have hor : a.bits ||| b.bits < 2 ^ 2 := Nat.or_lt_two_pow ha hb
    have h2 := Nat.and_pow_two_sub_one_eq_mod (a.bits ||| b.bits) 2
    norm_num at h2 hor
    rw [hmask]
    omega⟩

/-! ### Option flags (`bitflags! SpidevOptionFlags`, lines 28-37) -/

def SPI_CS_HIGH : Nat := 0x04

def SPI_LSB_FIRST : Nat := 0x08

def SPI_3WIRE : Nat := 0x10

def SPI_LOOP : Nat := 0x20

def SPI_NO_CS : Nat := 0x40

def SPI_READY : Nat := 0x80

/-! ### The kernel-visible transfer structure (lines 50-62) -/

/-- `struct spi_ioc_transfer`, fields in declared order with the source's
fixed-width integer types (`u64, u64, u32, u32, u16, u8, u8, u32`). -/
structure spi_ioc_transfer where
  tx_buf : Nat
  rx_buf : Nat
  len : Nat
  speed_hz : Nat
  delay_usecs : Nat
  bits_per_word : Nat
  cs_change : Nat
  pad : Nat

/-- Little-endian byte serialisation of a `w`-byte field. -/
def leBytes (w v : Nat) : List Nat :=
  (List.range w).map fun i => v / 2 ^ (8 * i) % 256

/-- The byte image of `spi_ioc_transfer`: each field serialised at its
declared width, in declared order. -/
def spi_ioc_transfer.toBytes (t : spi_ioc_transfer) : List Nat :=
  leBytes 8 t.tx_buf ++ leBytes 8 t.rx_buf ++ leBytes 4 t.len ++
    leBytes 4 t.speed_hz ++ leBytes 2 t.delay_usecs ++
    leBytes 1 t.bits_per_word ++ leBytes 1 t.cs_change ++ leBytes 4 t.pad

/-! ### The caller-facing transfer descriptor (lines 66-101) -/

/-- `pub struct SpidevTransfer` — optional owned byte buffers plus the
scalar fields, `#[derive(Default)]` in the source. -/
structure SpidevTransfer where
  tx_buf : Option (List Nat)
  rx_buf : Option (List Nat)
  len : Nat
  speed_hz : Nat
  delay_usecs : Nat
  bits_per_word : Nat
  cs_change : Nat
  pad : Nat

/-- `Default::default()` for `SpidevTransfer`: `None` buffers, zero scalars. -/
def SpidevTransfer.default : SpidevTransfer :=
  { tx_buf := none, rx_buf := none, len := 0, speed_hz := 0,
    delay_usecs := 0, bits_per_word := 0, cs_change := 0, pad := 0 }

/-- `Vec::with_capacity(n)` reserves capacity but the vector's length is 0:
its contents are the empty byte sequence. -/
def vecWithCapacity (_n : Nat) : List Nat := []

/-- `Vec::into_boxed_slice()` keeps exactly the vector's contents
(capacity beyond the length is dropped). -/
def intoBoxedSlice (v : List Nat) : List Nat := v

/-- The pre-1.7 `clone_from_slice`, the one in use at this source's era:
copies `min (dst.length) (src.length)` leading elements of `src` over the
head of `dst` and leaves the rest of `dst` unchanged. -/
def cloneFromSlice (dst src : List Nat) : List Nat :=
  src.take dst.length ++ dst.drop src.length

/-- `SpidevTransfer::read(length)` (lines 79-87): `rx_buf` is
`Vec::with_capacity(length).into_boxed_slice()`, `tx_buf` is `None`,
`len` is `length`, remaining fields from `Default`. -/
def SpidevTransfer.read (length : Nat) : SpidevTransfer :=
  let rx_buf_vec := vecWithCapacity length
  { SpidevTransfer.default with
    tx_buf := none
    rx_buf := some (intoBoxedSlice rx_buf_vec)
    len := length }

/-- `SpidevTransfer::write(tx_buf)` (lines 89-99): both buffers start as
`Vec::with_capacity(tx_buf.len())`; the transmit one then has
`clone_from_slice(tx_buf)` applied; `len` is `tx_buf.len()`. -/
def SpidevTransfer.write (tx_buf : List Nat) : SpidevTransfer :=
  let rx_buf_vec := vecWithCapacity tx_buf.length
  let tx_buf_vec := cloneFromSlice (vecWithCapacity tx_buf.length) tx_buf
  { SpidevTransfer.default with
    tx_buf := some (intoBoxedSlice tx_buf_vec)
    rx_buf := some (intoBoxedSlice rx_buf_vec)
    len := tx_buf.length }

/-! ### The ioctl backend and the typed accessors (lines 103-156) -/

/-- An errno carried by a failed syscall. -/
abbrev IoErr := Nat

/-- Modelled from the spec: the request encoder of the external `ioctl`
crate (`ioctl::op_read`, not under `src/`). Per the spec it composes the
direction, the magic byte, the operation identifier and the payload
byte-size into one numeric code: the Linux `_IOR` layout
`dir<<30 | size<<16 | magic<<8 | nr` with direction `read = 2`. -/
def op_read (magic nr size : Nat) : Nat :=
  2 * 2 ^ 30 + size % 2 ^ 14 * 2 ^ 16 + magic % 2 ^ 8 * 2 ^ 8 + nr % 2 ^ 8

/-- Modelled from the spec: `ioctl::op_write` (see `op_read`); the Linux
`_IOW` layout with direction `write = 1`, identical to `op_read` in every
field but the direction. -/
def op_write (magic nr size : Nat) : Nat :=
  1 * 2 ^ 30 + size % 2 ^ 14 * 2 ^ 16 + magic % 2 ^ 8 * 2 ^ 8 + nr % 2 ^ 8

/-- The raw ioctl syscall collaborator (`ioctl::read` / `ioctl::write`),
abstracted as a state-threading pair of operations so that failing and
echoing fake devices can be plugged in. `read fd op` yields the value the
kernel fills in; `write fd op v` consumes the value `v`. -/
structure IoctlSys (σ : Type) where
  read : Nat → Nat → σ → Except IoErr Nat × σ
  write : Nat → Nat → Nat → σ → Except IoErr Unit × σ

/-- `spidev_ioc_read::<T>(fd, nr)` (lines 103-107): builds the read code
from `SPI_IOC_MAGIC`, `nr` and `size_of::<T>()` and issues the syscall.
`size` stands for `mem::size_of::<T>() as u16`. -/
def spidev_ioc_read {σ : Type} (sys : IoctlSys σ) (size fd nr : Nat) (s : σ) :
    Except IoErr Nat × σ :=
  sys.read fd (op_read SPI_IOC_MAGIC nr size) s

/-- `spidev_ioc_write::<T>(fd, nr, data)` (lines 109-113). -/
def spidev_ioc_write {σ : Type} (sys : IoctlSys σ) (size fd nr v : Nat) (s : σ) :
    Except IoErr Unit × σ :=
  sys.write fd (op_write SPI_IOC_MAGIC nr size) v s

/-- `get_mode(fd) -> io::Result<u8>` (lines 115-118). -/
def get_mode {σ : Type} (sys : IoctlSys σ) (fd : Nat) (s : σ) :
    Except IoErr Nat × σ :=
  spidev_ioc_read sys 1 fd SPI_IOC_NR_MODE s

/-- `set_mode(fd, mode)` (lines 120-123): writes `mode.bits`. -/
def set_mode {σ : Type} (sys : IoctlSys σ) (fd : Nat) (mode : SpiModeFlags) (s : σ) :
    Except IoErr Unit × σ :=
  spidev_ioc_write sys 1 fd SPI_IOC_NR_MODE mode.bits s

/-- `get_lsb_first(fd) -> io::Result<bool>` (lines 125-128): reads a `u8`
and returns whether it is nonzero; a failed read propagates via `try!`. -/
def get_lsb_first {σ : Type} (sys : IoctlSys σ) (fd : Nat) (s : σ) :
    Except IoErr Bool × σ :=
  match spidev_ioc_read sys 1 fd SPI_IOC_NR_LSB_FIRST s with
  | (Except.ok v, s1) => (Except.ok (v != 0), s1)
  | (Except.error e, s1) => (Except.error e, s1)

/-- `set_lsb_first(fd, lsb_first)` (lines 130-134): writes byte 1 for
`true` and byte 0 for `false`. -/
def set_lsb_first {σ : Type} (sys : IoctlSys σ) (fd : Nat) (b : Bool) (s : σ) :
    Except IoErr Unit × σ :=
  spidev_ioc_write sys 1 fd SPI_IOC_NR_LSB_FIRST (if b then 1 else 0) s

/-- `get_bits_per_word(fd) -> io::Result<u8>` (lines 136-139). -/
def get_bits_per_word {σ : Type} (sys : IoctlSys σ) (fd : Nat) (s : σ) :
    Except IoErr Nat × σ :=
  spidev_ioc_read sys 1 fd SPI_IOC_NR_BITS_PER_WORD s

/-- `set_bits_per_word(fd, bits_per_word)` (lines 141-144). -/
def set_bits_per_word {σ : Type} (sys : IoctlSys σ) (fd v : Nat) (s : σ) :
    Except IoErr Unit × σ :=
  spidev_ioc_write sys 1 fd SPI_IOC_NR_BITS_PER_WORD v s

/-- `get_max_speed_hz(fd) -> io::Result<u32>` (lines 146-149): the payload
is `size_of::<u32>() = 4` bytes. -/
def get_max_speed_hz {σ : Type} (sys : IoctlSys σ) (fd : Nat) (s : σ) :
    Except IoErr Nat × σ :=
  spidev_ioc_read sys 4 fd SPI_IOC_NR_MAX_SPEED_HZ s

/-- `set_max_speed_hz(fd, max_speed_hz)` (lines 151-154). -/
def set_max_speed_hz {σ : Type} (sys : IoctlSys σ) (fd v : Nat) (s : σ) :
    Except IoErr Unit × σ :=
  spidev_ioc_write sys 4 fd SPI_IOC_NR_MAX_SPEED_HZ v s

/-- `pub fn xfer(fd: RawFd, tx_buf: &[u8]) {}` (line 156): the body is
empty, so the call touches no backend state and returns unit. -/
def xfer {σ : Type} (_sys : IoctlSys σ) (_fd : Nat) (_tx : List Nat) (s : σ) :
    Unit × σ :=
  ((), s)

/-- The outcome of `xfer` as its caller observes it in the `Result` view:
the return type `()` carries no error, so the call is unconditional
success, with the backend state untouched (no syscall is ever issued). -/
def xferResult {σ : Type} (sys : IoctlSys σ) (fd : Nat) (tx : List Nat) (s : σ) :
    Except IoErr Unit × σ :=
  (Except.ok (xfer sys fd tx s).1, (xfer sys fd tx s).2)

/-! ### Fake backends for the simulated-device properties -/

/-- A backend on which every syscall fails with errno `e`, leaving the
state unchanged. -/
def failSys (e : IoErr) : IoctlSys Unit :=
  { read := fun _ _ s => (Except.error e, s)
    write := fun _ _ _ s => (Except.error e, s) }

/-- The field key of an operation code: the code with its two direction
bits masked off, so that the read and the write code of one field share
a key. -/
def echoKey (op : Nat) : Nat := op % 2 ^ 30

/-- An echoing fake device: a store keyed by `echoKey`; a write records
the value under the field's key and a read returns the recorded value. -/
def echoSys : IoctlSys (Nat → Nat) :=
  { read := fun _ op st => (Except.ok (st (echoKey op)), st)
    write := fun _ op v st =>
      (Except.ok (), fun k => if k = echoKey op then v else st k) }

/-! ### The general transfer constructor (spec §4.3, §7) -/

/-- The failure kinds of the spec's error model: construction-time
invariant violations are a distinct "invalid request" kind, syscall
failures carry the errno. -/
inductive SpidevErr where
  | invalidRequest
  | ioFailure (errno : Nat)
deriving DecidableEq

/-- Modelled from the spec: the general transfer constructor for arbitrary
tx/rx/override combinations, which the repository does not implement (only
`read` and `write` exist in `src/`). Per the spec, both buffers, when
present, must be of equal length and `len` equals that shared length; a
mismatch fails fast with the "invalid request" kind and constructs no
descriptor. -/
def SpidevTransfer.full (tx rx : Option (List Nat)) (speed delay bpw cs : Nat) :
    Except SpidevErr SpidevTransfer :=
  match tx, rx with
  | some t, some r =>
    if t.length = r.length then
      Except.ok { tx_buf := some t, rx_buf := some r, len := t.length,
                  speed_hz := speed, delay_usecs := delay,
                  bits_per_word := bpw, cs_change := cs, pad := 0 }
    else
      Except.error SpidevErr.invalidRequest
  | some t, none =>
    Except.ok { tx_buf := some t, rx_buf := none, len := t.length,
                speed_hz := speed, delay_usecs := delay,
                bits_per_word := bpw, cs_change := cs, pad := 0 }
  | none, some r =>
    Except.ok { tx_buf := none, rx_buf := some r, len := r.length,
                speed_hz := speed, delay_usecs := delay,
                bits_per_word := bpw, cs_change := cs, pad := 0 }
  | none, none =>
    Except.ok { tx_buf := none, rx_buf := none, len := 0,
                speed_hz := speed, delay_usecs := delay,
                bits_per_word := bpw, cs_change := cs, pad := 0 }

/-! ## Theorems for the claims -/

/-- Claim C1 (code bug): `SpidevTransfer::write([0xAA])` is supposed to
copy the data into the transmit buffer, but `Vec::with_capacity` produces
a zero-length vector and the era's `clone_from_slice` copies only
`min(dst.len, src.len) = 0` bytes, so both buffers come out empty while
`len` still claims 1. -/
theorem write_drops_data :
    (SpidevTransfer.write [170]).tx_buf = some [] ∧
    (SpidevTransfer.write [170]).tx_buf ≠ some [170] ∧
    (SpidevTransfer.write [170]).rx_buf = some [] ∧
    (SpidevTransfer.write [170]).len = 1 := by
  refine ⟨rfl, ?_, rfl, rfl⟩
  decide

/-- Claim C2 (code bug): `SpidevTransfer::read(4)` records `len = 4` and
leaves the override fields zero, but its receive buffer is the empty byte
sequence (`Vec::with_capacity(4).into_boxed_slice()` has length 0), not a
4-byte buffer as the spec requires. -/
theorem read_rx_buffer_empty :
    (SpidevTransfer.read 4).tx_buf = none ∧
    (SpidevTransfer.read 4).rx_buf = some [] ∧
    Option.map List.length (SpidevTransfer.read 4).rx_buf = some 0 ∧
    (SpidevTransfer.read 4).len = 4 ∧
    (SpidevTransfer.read 4).speed_hz = 0 ∧
    (SpidevTransfer.read 4).delay_usecs = 0 ∧
    (SpidevTransfer.read 4).bits_per_word = 0 ∧
    (SpidevTransfer.read 4).cs_change = 0 := by
  exact ⟨rfl, rfl, rfl, rfl, rfl, rfl, rfl, rfl⟩

/-- Claim C3, amended: every typed accessor propagates a failing syscall
to the caller unchanged, while `xfer` — an unimplemented no-op — issues no
syscall and returns unit regardless of the backend. -/
theorem accessors_propagate_failure {σ : Type} (sys : IoctlSys σ) (e : IoErr)
    (hr : ∀ fd op s, sys.read fd op s = (Except.error e, s))
    (hw : ∀ fd op v s, sys.write fd op v s = (Except.error e, s))
    (fd : Nat) (m : SpiModeFlags) (b : Bool) (v : Nat) (tx : List Nat) (s : σ) :
    get_mode sys fd s = (Except.error e, s) ∧
    set_mode sys fd m s = (Except.error e, s) ∧
    get_lsb_first sys fd s = (Except.error e, s) ∧
    set_lsb_first sys fd b s = (Except.error e, s) ∧
    get_bits_per_word sys fd s = (Except.error e, s) ∧
    set_bits_per_word sys fd v s = (Except.error e, s) ∧
    get_max_speed_hz sys fd s = (Except.error e, s) ∧
    set_max_speed_hz sys fd v s = (Except.error e, s) ∧
    xfer sys fd tx s = ((), s) := by
  refine ⟨?_, ?_, ?_, ?_, ?_, ?_, ?_, ?_, rfl⟩ <;>
    simp [get_mode, set_mode, get_lsb_first, set_lsb_first, get_bits_per_word,
      set_bits_per_word, get_max_speed_hz, set_max_speed_hz,
      spidev_ioc_read, spidev_ioc_write, hr, hw]

/-- Witness for C3's amended theorem at the concrete always-failing
backend `failSys 5`. -/
theorem accessors_propagate_failure_witness :
    get_mode (failSys 5) 0 () = (Except.error 5, ()) ∧
    set_mode (failSys 5) 0 SpiModeFlags.mode0 () = (Except.error 5, ()) ∧
    get_lsb_first (failSys 5) 0 () = (Except.error 5, ()) ∧
    set_lsb_first (failSys 5) 0 true () = (Except.error 5, ()) ∧
    get_bits_per_word (failSys 5) 0 () = (Except.error 5, ()) ∧
    set_bits_per_word (failSys 5) 0 7 () = (Except.error 5, ()) ∧
    get_max_speed_hz (failSys 5) 0 () = (Except.error 5, ()) ∧
    set_max_speed_hz (failSys 5) 0 7 () = (Except.error 5, ()) ∧
    xfer (failSys 5) 0 [1] () = ((), ()) :=
  accessors_propagate_failure (failSys 5) 5 (fun _ _ _ => rfl)
    (fun _ _ _ _ => rfl) 0 SpiModeFlags.mode0 true 7 [1] ()

/-- Counterexample to claim C3 as stated: on a backend on which every
syscall fails with errno 5, transfer execution (`xfer`) still reports
success — its unit return type cannot carry the failure — so the
transfer-execution operation does not return the failure to the caller. -/
theorem xfer_swallows_failure :
    (failSys 5).read 0 (op_read SPI_IOC_MAGIC SPI_IOC_NR_TRANSFER 32) () =
      (Except.error 5, ()) ∧
    (failSys 5).write 0 (op_write SPI_IOC_MAGIC SPI_IOC_NR_TRANSFER 32) 0 () =
      (Except.error 5, ()) ∧
    xferResult (failSys 5) 0 [1, 2] () = (Except.ok (), ()) :=
  ⟨rfl, rfl, rfl⟩

/-- Claim C4: the kernel-visible `spi_ioc_transfer` serialises to exactly
32 bytes with the fields at the declared offsets and widths: tx address at
0 (8 bytes), rx address at 8 (8 bytes), length at 16 (4), speed at 20 (4),
delay at 24 (2), bits-per-word at 26 (1), cs-change at 27 (1), padding at
28 (4). -/
theorem spi_ioc_transfer_layout (t : spi_ioc_transfer) :
    t.toBytes.length = 32 ∧
    t.toBytes.take 8 = leBytes 8 t.tx_buf ∧
    (t.toBytes.drop 8).take 8 = leBytes 8 t.rx_buf ∧
    (t.toBytes.drop 16).take 4 = leBytes 4 t.len ∧
    (t.toBytes.drop 20).take 4 = leBytes 4 t.speed_hz ∧
    (t.toBytes.drop 24).take 2 = leBytes 2 t.delay_usecs ∧
    (t.toBytes.drop 26).take 1 = leBytes 1 t.bits_per_word ∧
    (t.toBytes.drop 27).take 1 = leBytes 1 t.cs_change ∧
    t.toBytes.drop 28 = leBytes 4 t.pad :=
  ⟨rfl, rfl, rfl, rfl, rfl, rfl, rfl, rfl, rfl⟩

/-- Claim C5: every typed accessor issues the syscall with an operation
code built from the SPI magic byte `'k' = 107`, its own fixed operation
identifier (mode = 1, lsb-first = 2, bits-per-word = 3, max-speed = 4) and
the byte width of the accessed type (1 for the byte-sized fields, 4 for
max-speed), recomputed from these inputs on the call itself. -/
theorem accessor_op_codes {σ : Type} (sys : IoctlSys σ) (fd : Nat) (s : σ)
    (m : SpiModeFlags) (v : Nat) (b : Bool) :
    get_mode sys fd s = sys.read fd (op_read SPI_IOC_MAGIC SPI_IOC_NR_MODE 1) s ∧
    set_mode sys fd m s =
      sys.write fd (op_write SPI_IOC_MAGIC SPI_IOC_NR_MODE 1) m.bits s ∧
    get_lsb_first sys fd s =
      (match sys.read fd (op_read SPI_IOC_MAGIC SPI_IOC_NR_LSB_FIRST 1) s with
       | (Except.ok w, s1) => (Except.ok (w != 0), s1)
       | (Except.error e, s1) => (Except.error e, s1)) ∧
    set_lsb_first sys fd b s =
      sys.write fd (op_write SPI_IOC_MAGIC SPI_IOC_NR_LSB_FIRST 1)
        (if b then 1 else 0) s ∧
    get_bits_per_word sys fd s =
      sys.read fd (op_read SPI_IOC_MAGIC SPI_IOC_NR_BITS_PER_WORD 1) s ∧
    set_bits_per_word sys fd v s =
      sys.write fd (op_write SPI_IOC_MAGIC SPI_IOC_NR_BITS_PER_WORD 1) v s ∧
    get_max_speed_hz sys fd s =
      sys.read fd (op_read SPI_IOC_MAGIC SPI_IOC_NR_MAX_SPEED_HZ 4) s ∧
    set_max_speed_hz sys fd v s =
      sys.write fd (op_write SPI_IOC_MAGIC SPI_IOC_NR_MAX_SPEED_HZ 4) v s :=
  ⟨rfl, rfl, rfl, rfl, rfl, rfl, rfl, rfl⟩

/-- Claim C6: the four named mode constants compose from the phase and
polarity bits exactly as stated. -/
theorem mode_constants_compose :
    SPI_MODE_1 = SPI_CPHA ∧ SPI_MODE_2 = SPI_CPOL ∧
    SPI_MODE_3 = (SPI_CPHA ||| SPI_CPOL) ∧ SPI_MODE_0 = 0 := by
  decide

/-- Claim C7: `set_lsb_first` puts exactly byte 1 (for `true`) or byte 0
(for `false`) on the wire, `get_lsb_first` decodes any nonzero wire byte
as `true` and a zero byte as `false`, and against the echoing fake device
a set followed by a get round-trips both booleans. -/
theorem lsb_first_wire_encoding (fd : Nat) (st : Nat → Nat) (v : Nat)
    (hv : v ≠ 0) :
    (set_lsb_first echoSys fd true st).2
        (echoKey (op_write SPI_IOC_MAGIC SPI_IOC_NR_LSB_FIRST 1)) = 1 ∧
    (set_lsb_first echoSys fd false st).2
        (echoKey (op_write SPI_IOC_MAGIC SPI_IOC_NR_LSB_FIRST 1)) = 0 ∧
    (get_lsb_first echoSys fd fun k =>
        if k = echoKey (op_read SPI_IOC_MAGIC SPI_IOC_NR_LSB_FIRST 1) then v
        else st k).1 = Except.ok true ∧
    (get_lsb_first echoSys fd fun k =>
        if k = echoKey (op_read SPI_IOC_MAGIC SPI_IOC_NR_LSB_FIRST 1) then 0
        else st k).1 = Except.ok false ∧
    (∀ b : Bool,
      (get_lsb_first echoSys fd (set_lsb_first echoSys fd b st).2).1 =
        Except.ok b) := by
  refine ⟨?_, ?_, ?_, ?_, ?_⟩
  · simp [set_lsb_first, spidev_ioc_write, echoSys]
  · simp [set_lsb_first, spidev_ioc_write, echoSys]
  · simp [get_lsb_first, spidev_ioc_read, echoSys, echoKey, op_read, op_write, hv]
  · simp [get_lsb_first, spidev_ioc_read, echoSys, echoKey, op_read, op_write]
  · intro b
    cases b <;>
      simp [get_lsb_first, set_lsb_first, spidev_ioc_read, spidev_ioc_write,
        echoSys, echoKey, op_read, op_write, SPI_IOC_MAGIC, SPI_IOC_NR_LSB_FIRST]

/-- Witness for C7 at concrete inputs: fd 0, all-zero store, nonzero wire
byte 7. -/
theorem lsb_first_wire_encoding_witness :
    (7 : Nat) ≠ 0 ∧
    (get_lsb_first echoSys 0 fun k =>
        if k = echoKey (op_read SPI_IOC_MAGIC SPI_IOC_NR_LSB_FIRST 1) then 7
        else (fun _ => 0) k).1 = Except.ok true ∧
    (get_lsb_first echoSys 0
        (set_lsb_first echoSys 0 true fun _ => 0).2).1 = Except.ok true :=
  ⟨by decide,
   (lsb_first_wire_encoding 0 (fun _ => 0) 7 (by decide)).2.2.1,
   (lsb_first_wire_encoding 0 (fun _ => 0) 7 (by decide)).2.2.2.2 true⟩

/-- Claim C8: the (spec-modelled) general constructor rejects the
mismatched pair `tx = [1, 2]`, `rx = [3]` with the invalid-request kind
and produces no descriptor, and for every equal-length pair it produces a
descriptor whose `len` is the shared length. -/
theorem full_constructor_len (t r : List Nat) (s d b c : Nat)
    (h : t.length = r.length) :
    SpidevTransfer.full (some [1, 2]) (some [3]) 0 0 0 0 =
      Except.error SpidevErr.invalidRequest ∧
    SpidevTransfer.full (some t) (some r) s d b c =
      Except.ok { tx_buf := some t, rx_buf := some r, len := t.length,
                  speed_hz := s, delay_usecs := d, bits_per_word := b,
                  cs_change := c, pad := 0 } := by
  constructor
  · rfl
  · simp [SpidevTransfer.full, h]

/-- Witness for C8 at the concrete equal-length pair `[5]`, `[9]`. -/
theorem full_constructor_len_witness :
    ([5] : List Nat).length = ([9] : List Nat).length ∧
    SpidevTransfer.full (some [5]) (some [9]) 1 2 3 4 =
      Except.ok { tx_buf := some [5], rx_buf := some [9], len := 1,
                  speed_hz := 1, delay_usecs := 2, bits_per_word := 3,
                  cs_change := 4, pad := 0 } :=
  ⟨rfl, (full_constructor_len [5] [9] 1 2 3 4 rfl).2⟩

/-- Claim C9: against the echoing fake device, `set_max_speed_hz` with any
32-bit value followed by `get_max_speed_hz` returns exactly that value. -/
theorem max_speed_roundtrip (fd v : Nat) (st : Nat → Nat) (_hv : v < 2 ^ 32) :
    (set_max_speed_hz echoSys fd v st).1 = Except.ok () ∧
    (get_max_speed_hz echoSys fd (set_max_speed_hz echoSys fd v st).2).1 =
      Except.ok v := by
  constructor
  · rfl
  · simp [get_max_speed_hz, set_max_speed_hz, spidev_ioc_read,
      spidev_ioc_write, echoSys, echoKey, op_read, op_write,
      SPI_IOC_MAGIC, SPI_IOC_NR_MAX_SPEED_HZ]

/-- Witness for C9 at the concrete speed value 123456. -/
theorem max_speed_roundtrip_witness :
    (123456 : Nat) < 2 ^ 32 ∧
    (get_max_speed_hz echoSys 0
        (set_max_speed_hz echoSys 0 123456 fun _ => 0).2).1 =
      Except.ok 123456 :=
  ⟨by norm_num, (max_speed_roundtrip 0 123456 (fun _ => 0) (by norm_num)).2⟩

/-- Claim C10: whatever `SpiModeFlags` value is passed, the byte
`set_mode` puts on the wire is the flag value itself, which is below 4 and
has every option-flag bit (CS-high, LSB-first, 3-wire, loop, no-CS, ready)
clear: only the clock-phase and clock-polarity bits can reach the device
through `set_mode`. -/
theorem set_mode_only_mode_bits (m : SpiModeFlags) (fd : Nat) (st : Nat → Nat) :
    (set_mode echoSys fd m st).2
        (echoKey (op_write SPI_IOC_MAGIC SPI_IOC_NR_MODE 1)) = m.bits ∧
    m.bits < 4 ∧
    m.bits &&&
      (SPI_CS_HIGH ||| SPI_LSB_FIRST ||| SPI_3WIRE ||| SPI_LOOP |||
        SPI_NO_CS ||| SPI_READY) = 0 := by
  have hlt : m.bits < 4 := by
    have h := m.hsub
    have hmask : spiModeAllBits = 3 := by decide
    rw [hmask] at h
    have h2 := Nat.and_pow_two_sub_one_eq_mod m.bits 2
    norm_num at h2
    omega
  refine ⟨?_, hlt, ?_⟩
  · simp [set_mode, spidev_ioc_write, echoSys]
  · have hm : (SPI_CS_HIGH ||| SPI_LSB_FIRST ||| SPI_3WIRE ||| SPI_LOOP |||
        SPI_NO_CS ||| SPI_READY) = 252 := by decide
    rw [hm]
    have hcases : m.bits = 0 ∨ m.bits = 1 ∨ m.bits = 2 ∨ m.bits = 3 := by omega
    rcases hcases with h | h | h | h <;> rw [h] <;> decide

end Spidev
